import Mathlib

/-!
Shallow embedding of the backend-suplementos service layer.

JavaScript numbers are modelled as exact arithmetic: monetary amounts as
rationals, quantities and stock counts as integers.  Number.toFixed(2)
followed by Number(...) is modelled by round2 (round half up to two
decimal places).  Remote-database calls are modelled by pure state passing
on a DB record holding the relational rows; transport-level failures of
the hosted client are outside the model (the happy database), while every
check and error the service code itself performs is kept.
-/

/-! ### Domain errors (src/types/errors.ts) -/

def msgUnauthorized : String := "Unauthorized access"

def msgForbidden : String := "Forbidden operation"

def msgInternal : String := "Internal server error"

/-- Embedding of the DomainError class hierarchy: one constructor per
concrete subclass, carrying the constructor arguments of the source. -/
inductive DomainError where
  | notFound (resource : String) (identifier : Option String)
  | conflict (resource : String) (field : String) (value : String)
  | validation (msg : String) (field : Option String)
  | unauthorized (msg : String)
  | forbidden (msg : String)
  | insufficientData (resource : String) (available : Int) (requested : Int)
  | businessRule (msg : String)
  | internal (msg : String)
deriving DecidableEq

def DomainError.code : DomainError → String
  | .notFound _ _ => "NOT_FOUND"
  | .conflict _ _ _ => "CONFLICT"
  | .validation _ _ => "VALIDATION_ERROR"
  | .unauthorized _ => "UNAUTHORIZED"
  | .forbidden _ => "FORBIDDEN"
  | .insufficientData _ _ _ => "INSUFFICIENT_DATA"
  | .businessRule _ => "BUSINESS_RULE_VIOLATION"
  | .internal _ => "INTERNAL_ERROR"

def DomainError.statusCode : DomainError → Nat
  | .notFound _ _ => 404
  | .conflict _ _ _ => 409
  | .validation _ _ => 400
  | .unauthorized _ => 401
  | .forbidden _ => 403
  | .insufficientData _ _ _ => 422
  | .businessRule _ => 422
  | .internal _ => 500

def DomainError.isOperational : DomainError → Bool
  | .internal _ => false
  | _ => true

/-- ERROR_MAPPINGS constant: error code to HTTP status. -/
def ERROR_MAPPINGS : List (String × Nat) :=
  [(DomainError.code (.notFound "" none), 404),
   (DomainError.code (.conflict "" "" ""), 409),
   (DomainError.code (.validation "" none), 400),
   (DomainError.code (.unauthorized ""), 401),
   (DomainError.code (.forbidden ""), 403),
   (DomainError.code (.insufficientData "" 0 0), 422),
   (DomainError.code (.businessRule ""), 422),
   (DomainError.code (.internal ""), 500)]

/-- An arbitrary runtime error: either a DomainError or anything else. -/
inductive AppError where
  | domain (e : DomainError)
  | other (msg : String)
deriving DecidableEq

def isDomainError : AppError → Bool
  | .domain _ => true
  | .other _ => false

def getHttpStatusCode : AppError → Nat
  | .domain e => e.statusCode
  | .other _ => 500

/-! ### Catalog and cart data model (src/types/catalog.ts, src/types/cart.ts) -/

structure Product where
  id : Nat
  sku : String
  name : String
  description : Option String
  category_id : Option Nat
  retail_price : Rat
  distributor_price : Rat
  active : Bool
deriving DecidableEq

structure CartItemWithProduct where
  cart_id : Nat
  product_id : Nat
  qty : Int
  product : Product
deriving DecidableEq

inductive PriceTier where
  | retail
  | distributor
deriving DecidableEq

structure PricingConfig where
  DISTRIBUTOR_THRESHOLD : Rat
  MINIMUM_ORDER_ITEMS : Int
deriving DecidableEq

structure PricingCalculation where
  subtotal : Rat
  tier : PriceTier
  items_count : Int
  meets_minimum : Bool
  distributor_savings : Option Rat
deriving DecidableEq

/-! ### PricingService (src/services/pricingService.ts) -/

/-- PricingService.CONFIG. -/
def CONFIG : PricingConfig :=
  { DISTRIBUTOR_THRESHOLD := 5000
    MINIMUM_ORDER_ITEMS := 7 }

/-- Number.toFixed(2) on an exact value: round half up at two decimals. -/
def round2 (x : Rat) : Rat := ((round (100 * x) : Int) : Rat) / 100

/-- The retailSubtotal reduce inside calculatePricing. -/
def retailSubtotal (items : List CartItemWithProduct) : Rat :=
  items.foldl (fun total item => total + item.product.retail_price * (item.qty : Rat)) 0

/-- The distributorSubtotal reduce inside calculatePricing. -/
def distributorSubtotal (items : List CartItemWithProduct) : Rat :=
  items.foldl (fun total item => total + item.product.distributor_price * (item.qty : Rat)) 0

/-- The totalItems reduce inside calculatePricing. -/
def totalItems (items : List CartItemWithProduct) : Int :=
  items.foldl (fun count item => count + item.qty) 0

/-- PricingService.qualifiesForDistributorPricing. -/
def qualifiesForDistributorPricing (subtotal : Rat) : Bool :=
  decide (CONFIG.DISTRIBUTOR_THRESHOLD ≤ subtotal)

/-- PricingService.meetsMinimumItems. -/
def meetsMinimumItems (itemCount : Int) : Bool :=
  decide (CONFIG.MINIMUM_ORDER_ITEMS ≤ itemCount)

/-- PricingService.calculatePricing.  The try body never throws in the
model (pure arithmetic), so the catch fallback branch is unreachable.
The JavaScript truthiness test on distributorSavings is false exactly on
undefined and zero. -/
def calculatePricing (items : List CartItemWithProduct) : PricingCalculation :=
  let retailSub := retailSubtotal items
  let distributorSub := distributorSubtotal items
  let totalIt := totalItems items
  let qualifies := qualifiesForDistributorPricing retailSub
  let tier : PriceTier := if qualifies then .distributor else .retail
  let subtotal := if qualifies then distributorSub else retailSub
  let distributorSavings : Option Rat :=
    if qualifies then some (retailSub - distributorSub) else none
  let meetsMinimum := meetsMinimumItems totalIt
  { subtotal := round2 subtotal
    tier := tier
    items_count := totalIt
    meets_minimum := meetsMinimum
    distributor_savings :=
      match distributorSavings with
      | some s => if s = 0 then none else some (round2 s)
      | none => none }

/-! ### Relational state (hosted database rows) -/

structure CategoryRow where
  id : Nat
  name : String
deriving DecidableEq

structure InventoryRow where
  product_id : Nat
  stock : Int
  low_stock_threshold : Int
deriving DecidableEq

structure CartRow where
  id : Nat
  user_id : String
deriving DecidableEq

structure CartItemRow where
  cart_id : Nat
  product_id : Nat
  qty : Int
deriving DecidableEq

/-- The tables the modelled services touch, plus fresh-id counters for
rows the database assigns ids to on insert. -/
structure DB where
  categories : List CategoryRow
  products : List Product
  inventory : List InventoryRow
  carts : List CartRow
  cartItems : List CartItemRow
  nextCategoryId : Nat
  nextProductId : Nat
  nextCartId : Nat
deriving DecidableEq

def emptyDB : DB :=
  { categories := []
    products := []
    inventory := []
    carts := []
    cartItems := []
    nextCategoryId := 1
    nextProductId := 1
    nextCartId := 1 }

/-! ### InventoryService (src/services/inventoryService.ts) -/

/-- InventoryService.getInventory: select by product_id, maybeSingle. -/
def getInventory (db : DB) (productId : Nat) : Option InventoryRow :=
  db.inventory.find? (fun inv => inv.product_id = productId)

structure UpdateInventoryRequest where
  stock : Int
  low_stock_threshold : Option Int
deriving DecidableEq

def msgStockNegative : String := "Stock cannot be negative"

def fieldStock : String := "stock"

def msgUpdateInventoryFailed : String := "Failed to update inventory"

def msgFetchProductInfoFailed : String := "Failed to fetch product information"

def resInventory : String := "Inventory"

def resStock : String := "stock"

/-- InventoryService.updateInventory.  Rejects a negative stock before
touching the database; the update targets every row with the given
product_id and fails (wrapped as a 500) when no row matched; the
subsequent product fetch failing also surfaces a 500, after the
inventory write already happened. -/
def updateInventory (db : DB) (productId : Nat) (updates : UpdateInventoryRequest) :
    DB × Except DomainError InventoryRow :=
  if updates.stock < 0 then
    (db, .error (.validation msgStockNegative (some fieldStock)))
  else
    match getInventory db productId with
    | none => (db, .error (.internal msgUpdateInventoryFailed))
    | some inv =>
      let newRow : InventoryRow :=
        { product_id := productId
          stock := updates.stock
          low_stock_threshold := updates.low_stock_threshold.getD inv.low_stock_threshold }
      let db1 : DB :=
        { db with inventory := db.inventory.map (fun r =>
            if r.product_id = productId then
              { r with stock := updates.stock
                       low_stock_threshold :=
                         updates.low_stock_threshold.getD r.low_stock_threshold }
            else r) }
      match db1.products.find? (fun p => p.id = productId) with
      | none => (db1, .error (.internal msgFetchProductInfoFailed))
      | some _ => (db1, .ok newRow)

/-- InventoryService.adjustStock. -/
def adjustStock (db : DB) (productId : Nat) (adjustment : Int) :
    DB × Except DomainError InventoryRow :=
  match getInventory db productId with
  | none => (db, .error (.notFound resInventory (some (toString productId))))
  | some currentInventory =>
    let newStock := currentInventory.stock + adjustment
    if newStock < 0 then
      (db, .error (.insufficientData resStock currentInventory.stock
        (Int.natAbs adjustment)))
    else
      let db1 : DB :=
        { db with inventory := db.inventory.map (fun r =>
            if r.product_id = productId then { r with stock := newStock } else r) }
      (db1, .ok { product_id := productId
                  stock := newStock
                  low_stock_threshold := currentInventory.low_stock_threshold })

/-- InventoryService.checkStockAvailability: available, currentStock. -/
def checkStockAvailability (db : DB) (productId : Nat) (requiredQuantity : Int) :
    Bool × Int :=
  match getInventory db productId with
  | none => (false, 0)
  | some inventory => (decide (requiredQuantity ≤ inventory.stock), inventory.stock)

/-! ### CartService (src/services/cartService.ts) -/

structure StockValidation where
  product_id : Nat
  requested_qty : Int
  available_stock : Int
  is_valid : Bool
deriving DecidableEq

def msgQtyPositive : String := "Quantity must be greater than 0"

def msgQtyNonNegative : String := "Quantity cannot be negative"

def fieldQty : String := "qty"

def fieldProductId : String := "product_id"

def resProduct : String := "Product"

def resCartItem : String := "Cart item"

def msgProductUnavailable : String := "Product is not available"

def msgInsufficientStock : String := "Insufficient stock"

def msgInsufficientStockTotal : String := "Insufficient stock for total quantity"

def msgAddToCartFailed : String := "Failed to add item to cart"

def msgUpdateCartItemFailed : String := "Failed to update cart item"

/-- CartService.getOrCreateCart: find the user's cart, else insert one. -/
def getOrCreateCart (db : DB) (userId : String) : DB × CartRow :=
  match db.carts.find? (fun c => c.user_id = userId) with
  | some existingCart => (db, existingCart)
  | none =>
    let newCart : CartRow := { id := db.nextCartId, user_id := userId }
    ({ db with carts := db.carts ++ [newCart], nextCartId := db.nextCartId + 1 },
     newCart)

/-- CartService.validateProductExists: (exists, isActive). -/
def validateProductExists (db : DB) (productId : Nat) : Bool × Bool :=
  match db.products.find? (fun p => p.id = productId) with
  | some product => (true, product.active)
  | none => (false, false)

/-- CartService.validateStock, via InventoryService.checkStockAvailability. -/
def validateStock (db : DB) (productId : Nat) (requestedQty : Int) : StockValidation :=
  let stockCheck := checkStockAvailability db productId requestedQty
  { product_id := productId
    requested_qty := requestedQty
    available_stock := stockCheck.2
    is_valid := stockCheck.1 }

/-- The cart_items select by (cart_id, product_id), maybeSingle. -/
def findCartItem (db : DB) (cartId : Nat) (productId : Nat) : Option CartItemRow :=
  db.cartItems.find? (fun it => it.cart_id = cartId ∧ it.product_id = productId)

/-- The cart_items update of qty on every row matching (cart_id, product_id). -/
def updateCartItemRow (db : DB) (cartId : Nat) (productId : Nat) (q : Int) : DB :=
  { db with cartItems := db.cartItems.map (fun it =>
      if it.cart_id = cartId ∧ it.product_id = productId then { it with qty := q }
      else it) }

/-- The cart_items insert of a fresh row. -/
def insertCartItemRow (db : DB) (cartId : Nat) (productId : Nat) (q : Int) : DB :=
  { db with cartItems := db.cartItems ++ [{ cart_id := cartId, product_id := productId, qty := q }] }

/-- The cart_items delete of every row matching (cart_id, product_id). -/
def deleteCartItemRows (db : DB) (cartId : Nat) (productId : Nat) : DB :=
  { db with cartItems := db.cartItems.filter (fun it =>
      ¬ (it.cart_id = cartId ∧ it.product_id = productId)) }

/-- Body of the try block of CartService.addToCart, after the qty guard. -/
def addToCartInner (db : DB) (userId : String) (productId : Nat) (qty : Int) :
    DB × Except DomainError CartItemRow :=
  let res := getOrCreateCart db userId
  let db1 := res.1
  let cart := res.2
  let productExists := validateProductExists db1 productId
  if ¬ productExists.1 then
    (db1, .error (.notFound resProduct (some (toString productId))))
  else if ¬ productExists.2 then
    (db1, .error (.validation msgProductUnavailable (some fieldProductId)))
  else
    let stockValidation := validateStock db1 productId qty
    if ¬ stockValidation.is_valid then
      (db1, .error (.validation msgInsufficientStock (some fieldQty)))
    else
      match findCartItem db1 cart.id productId with
      | some existingItem =>
        let newQty := existingItem.qty + qty
        let newStockValidation := validateStock db1 productId newQty
        if ¬ newStockValidation.is_valid then
          (db1, .error (.validation msgInsufficientStockTotal (some fieldQty)))
        else
          (updateCartItemRow db1 cart.id productId newQty,
           .ok { cart_id := cart.id, product_id := productId, qty := newQty })
      | none =>
        (insertCartItemRow db1 cart.id productId qty,
         .ok { cart_id := cart.id, product_id := productId, qty := qty })

/-- CartService.addToCart: the qty guard runs before the try block, and
the catch re-throws ValidationError and InternalServerError unchanged
while wrapping everything else (NotFoundError included) into a generic
InternalServerError. -/
def addToCart (db : DB) (userId : String) (productId : Nat) (qty : Int) :
    DB × Except DomainError CartItemRow :=
  if qty ≤ 0 then (db, .error (.validation msgQtyPositive (some fieldQty)))
  else
    let res := addToCartInner db userId productId qty
    match res.2 with
    | .ok item => (res.1, .ok item)
    | .error e =>
      match e with
      | .validation m f => (res.1, .error (.validation m f))
      | .internal m => (res.1, .error (.internal m))
      | _ => (res.1, .error (.internal msgAddToCartFailed))

/-- CartService.removeFromCart: delete the matching rows; only
transport errors (outside the model) can fail it. -/
def removeFromCart (db : DB) (userId : String) (productId : Nat) :
    DB × Except DomainError Unit :=
  let res := getOrCreateCart db userId
  (deleteCartItemRows res.1 res.2.id productId, .ok ())

/-- Body of the try block of CartService.updateCartItem, after the
negative-qty guard. -/
def updateCartItemInner (db : DB) (userId : String) (productId : Nat) (newQty : Int) :
    DB × Except DomainError (Option CartItemRow) :=
  let res := getOrCreateCart db userId
  let db1 := res.1
  let cart := res.2
  if newQty = 0 then
    let rem := removeFromCart db1 userId productId
    (rem.1, .ok none)
  else
    let productExists := validateProductExists db1 productId
    if ¬ productExists.1 then
      (db1, .error (.notFound resProduct (some (toString productId))))
    else if ¬ productExists.2 then
      (db1, .error (.validation msgProductUnavailable (some fieldProductId)))
    else
      let stockValidation := validateStock db1 productId newQty
      if ¬ stockValidation.is_valid then
        (db1, .error (.validation msgInsufficientStock (some fieldQty)))
      else
        let db2 := updateCartItemRow db1 cart.id productId newQty
        match findCartItem db2 cart.id productId with
        | none =>
          (db2, .error (.notFound resCartItem
            (some (toString cart.id ++ "-" ++ toString productId))))
        | some updatedItem => (db2, .ok (some updatedItem))

/-- CartService.updateCartItem: negative-qty guard before the try block;
the catch re-throws ValidationError, NotFoundError and
InternalServerError unchanged and wraps everything else as a 500. -/
def updateCartItem (db : DB) (userId : String) (productId : Nat) (newQty : Int) :
    DB × Except DomainError (Option CartItemRow) :=
  if newQty < 0 then (db, .error (.validation msgQtyNonNegative (some fieldQty)))
  else
    let res := updateCartItemInner db userId productId newQty
    match res.2 with
    | .ok item => (res.1, .ok item)
    | .error e =>
      match e with
      | .validation m f => (res.1, .error (.validation m f))
      | .notFound r i => (res.1, .error (.notFound r i))
      | .internal m => (res.1, .error (.internal m))
      | _ => (res.1, .error (.internal msgUpdateCartItemFailed))

/-! ### CategoryService (src/services/categoryService.ts) -/

def resCategory : String := "Category"

def fieldName : String := "name"

def fieldSku : String := "SKU"

def msgUpdateCategoryFailed : String := "Failed to update category"

/-- CategoryService.getCategoryByName. -/
def getCategoryByName (db : DB) (name : String) : Option CategoryRow :=
  db.categories.find? (fun c => c.name = name)

/-- CategoryService.createCategory: its own name-uniqueness check, then
the insert. -/
def createCategory (db : DB) (name : String) : DB × Except DomainError CategoryRow :=
  match getCategoryByName db name with
  | some _ => (db, .error (.conflict resCategory fieldName name))
  | none =>
    let newRow : CategoryRow := { id := db.nextCategoryId, name := name }
    ({ db with categories := db.categories ++ [newRow]
               nextCategoryId := db.nextCategoryId + 1 },
     .ok newRow)

/-- CategoryService.updateCategory: rejects a name held by a different
category, then updates; an update matching no row surfaces a 500. -/
def updateCategory (db : DB) (id : Nat) (name : String) :
    DB × Except DomainError CategoryRow :=
  match getCategoryByName db name with
  | some existing =>
    if existing.id ≠ id then (db, .error (.conflict resCategory fieldName name))
    else
      (({ db with categories := db.categories.map (fun c =>
            if c.id = id then { c with name := name } else c) } : DB),
       .ok { id := id, name := name })
  | none =>
    match db.categories.find? (fun c => c.id = id) with
    | none => (db, .error (.internal msgUpdateCategoryFailed))
    | some _ =>
      (({ db with categories := db.categories.map (fun c =>
            if c.id = id then { c with name := name } else c) } : DB),
       .ok { id := id, name := name })

/-- CategoryService.deleteCategory: when products reference the
category, first null out their category_id, then delete the category. -/
def deleteCategory (db : DB) (id : Nat) : DB × Except DomainError Unit :=
  let productCount := (db.products.filter (fun p => p.category_id = some id)).length
  let db1 : DB :=
    if 0 < productCount then
      { db with products := db.products.map (fun p =>
          if p.category_id = some id then { p with category_id := none } else p) }
    else db
  ({ db1 with categories := db1.categories.filter (fun c => ¬ c.id = id) }, .ok ())

/-! ### ProductService.createProduct (src/services/productService.ts) -/

structure CreateProductRequest where
  sku : String
  name : String
  description : Option String
  category_id : Option Nat
  retail_price : Rat
  distributor_price : Rat
  active : Bool
  initial_stock : Int
  low_stock_threshold : Int
deriving DecidableEq

/-- ProductService.getProductBySku. -/
def getProductBySku (db : DB) (sku : String) : Option Product :=
  db.products.find? (fun p => p.sku = sku)

/-- ProductService.createProduct: its own SKU-uniqueness check, then the
product insert and the initial inventory insert. -/
def createProduct (db : DB) (productData : CreateProductRequest) :
    DB × Except DomainError Product :=
  match getProductBySku db productData.sku with
  | some _ => (db, .error (.conflict resProduct fieldSku productData.sku))
  | none =>
    let product : Product :=
      { id := db.nextProductId
        sku := productData.sku
        name := productData.name
        description := productData.description
        category_id := productData.category_id
        retail_price := productData.retail_price
        distributor_price := productData.distributor_price
        active := productData.active }
    let invRow : InventoryRow :=
      { product_id := product.id
        stock := productData.initial_stock
        low_stock_threshold := productData.low_stock_threshold }
    ({ db with products := db.products ++ [product]
               inventory := db.inventory ++ [invRow]
               nextProductId := db.nextProductId + 1 },
     .ok product)

/-! ### Interleaved execution of two addToCart calls

Each await on the remote client inside CartService.addToCart is one
atomic step; between two steps of one call the other call may run.  The
per-call control state mirrors the statement sequence of addToCart. -/

instance instDecEqExcept {ε α : Type} [DecidableEq ε] [DecidableEq α] :
    DecidableEq (Except ε α) := fun x y =>
  match x, y with
  | .error e1, .error e2 => decidable_of_iff (e1 = e2) (by simp)
  | .error _, .ok _ => .isFalse (fun h => Except.noConfusion h)
  | .ok _, .error _ => .isFalse (fun h => Except.noConfusion h)
  | .ok a, .ok b => decidable_of_iff (a = b) (by simp)

/-- Program counter of one in-flight addToCart call:
pcCart: about to run getOrCreateCart;
pcProduct: about to run validateProductExists;
pcStock: about to run validateStock for the requested qty;
pcFind: about to read the existing cart item;
pcWrite: about to revalidate (existing branch) and issue the write;
tDone: finished, with the call's outcome. -/
inductive ThreadPC where
  | pcCart
  | pcProduct
  | pcStock
  | pcFind
  | pcWrite
  | tDone (outcome : Except DomainError CartItemRow)
deriving DecidableEq

structure ThreadSt where
  userId : String
  productId : Nat
  qty : Int
  cartId : Nat
  existing : Option CartItemRow
  pc : ThreadPC
deriving DecidableEq

def mkThread (userId : String) (productId : Nat) (qty : Int) : ThreadSt :=
  { userId := userId
    productId := productId
    qty := qty
    cartId := 0
    existing := none
    pc := .pcCart }

/-- One atomic step of one addToCart call against the shared database,
reusing the same helpers as the sequential embedding. -/
def threadStep (db : DB) (t : ThreadSt) : DB × ThreadSt :=
  match t.pc with
  | .pcCart =>
    let res := getOrCreateCart db t.userId
    (res.1, { t with cartId := res.2.id, pc := .pcProduct })
  | .pcProduct =>
    let productExists := validateProductExists db t.productId
    if ¬ productExists.1 then
      (db, { t with pc := .tDone (.error
        (.notFound resProduct (some (toString t.productId)))) })
    else if ¬ productExists.2 then
      (db, { t with pc := .tDone (.error
        (.validation msgProductUnavailable (some fieldProductId))) })
    else (db, { t with pc := .pcStock })
  | .pcStock =>
    let stockValidation := validateStock db t.productId t.qty
    if ¬ stockValidation.is_valid then
      (db, { t with pc := .tDone (.error
        (.validation msgInsufficientStock (some fieldQty))) })
    else (db, { t with pc := .pcFind })
  | .pcFind =>
    (db, { t with existing := findCartItem db t.cartId t.productId, pc := .pcWrite })
  | .pcWrite =>
    match t.existing with
    | some existingItem =>
      let newQty := existingItem.qty + t.qty
      let newStockValidation := validateStock db t.productId newQty
      if ¬ newStockValidation.is_valid then
        (db, { t with pc := .tDone (.error
          (.validation msgInsufficientStockTotal (some fieldQty))) })
      else
        (updateCartItemRow db t.cartId t.productId newQty,
         { t with pc := .tDone (.ok
           { cart_id := t.cartId, product_id := t.productId, qty := newQty }) })
    | none =>
      (insertCartItemRow db t.cartId t.productId t.qty,
       { t with pc := .tDone (.ok
         { cart_id := t.cartId, product_id := t.productId, qty := t.qty }) })
  | .tDone _ => (db, t)

structure TwoThreadConfig where
  db : DB
  threadA : ThreadSt
  threadB : ThreadSt
deriving DecidableEq

/-- Run one step of the scheduled thread (false picks A, true picks B). -/
def schedStep (cfg : TwoThreadConfig) (pick : Bool) : TwoThreadConfig :=
  if pick then
    let res := threadStep cfg.db cfg.threadB
    { cfg with db := res.1, threadB := res.2 }
  else
    let res := threadStep cfg.db cfg.threadA
    { cfg with db := res.1, threadA := res.2 }

/-- Run a whole interleaving schedule. -/
def runSchedule (schedule : List Bool) (cfg : TwoThreadConfig) : TwoThreadConfig :=
  schedule.foldl schedStep cfg

/-- Total quantity the cart holds for one product, across all its rows. -/
def cartQtyTotal (db : DB) (cartId : Nat) (productId : Nat) : Int :=
  ((db.cartItems.filter (fun it => it.cart_id = cartId ∧ it.product_id = productId)).map
    (fun it => it.qty)).sum

/-! ### Concrete fixtures used to evaluate the embedding -/

def skuA : String := "PROT-001"

def nameA : String := "Whey Protein"

def userU : String := "user-1"

def catName : String := "Proteinas"

def prodA : Product :=
  { id := 1
    sku := skuA
    name := nameA
    description := none
    category_id := none
    retail_price := 100
    distributor_price := 80
    active := true }

def prodC : Product := { prodA with id := 2, category_id := some 1 }

def invA : InventoryRow := { product_id := 1, stock := 5, low_stock_threshold := 5 }

def dbInv : DB := { emptyDB with products := [prodA], inventory := [invA] }

def dbCat : DB := { emptyDB with categories := [{ id := 1, name := catName }] }

def dbProdCat : DB :=
  { emptyDB with categories := [{ id := 1, name := catName }], products := [prodC] }

def cartU : CartRow := { id := 1, user_id := userU }

def dbCart : DB := { emptyDB with products := [prodA], inventory := [invA], carts := [cartU] }

def dbCartItem : DB :=
  { dbCart with cartItems := [{ cart_id := 1, product_id := 1, qty := 1 }] }

/-- Interleaving in which both calls run every check and read the
existing cart item before either issues its write. -/
def raceSchedule : List Bool :=
  [false, false, false, false, true, true, true, true, false, true]

/-- The same two calls run one after the other. -/
def seqSchedule : List Bool :=
  [false, false, false, false, false, true, true, true, true, true]

/-- Two concurrent addToCart calls of the same user for product 1 with
qty 5, against a stock of 5. -/
def raceStart : TwoThreadConfig :=
  { db := dbCart, threadA := mkThread userU 1 5, threadB := mkThread userU 1 5 }

/-! ### Helper lemmas -/

theorem foldl_add_map_sum {α M : Type} [AddCommMonoid M] (f : α → M) :
    ∀ (l : List α) (a : M), l.foldl (fun t x => t + f x) a = a + (l.map f).sum := by
  intro l
  induction l with
  | nil => intro a; simp
  | cons x xs ih => intro a; simp [ih, add_assoc]

theorem retailSubtotal_eq_sum (items : List CartItemWithProduct) :
    retailSubtotal items =
      (items.map (fun it => it.product.retail_price * (it.qty : Rat))).sum := by
  unfold retailSubtotal
  exact (foldl_add_map_sum _ items 0).trans (zero_add _)

theorem distributorSubtotal_eq_sum (items : List CartItemWithProduct) :
    distributorSubtotal items =
      (items.map (fun it => it.product.distributor_price * (it.qty : Rat))).sum := by
  unfold distributorSubtotal
  exact (foldl_add_map_sum _ items 0).trans (zero_add _)

theorem totalItems_eq_sum (items : List CartItemWithProduct) :
    totalItems items = (items.map (fun it => it.qty)).sum := by
  unfold totalItems
  exact (foldl_add_map_sum _ items 0).trans (zero_add _)

/-! ### Claim theorems -/

/-- C1: calculatePricing computes the subtotal at retail prices; when
that retail subtotal reaches the fixed threshold 5000 the tier is
distributor and the charged subtotal is the sum of distributor_price
times qty (rounded to two decimals for output), otherwise the tier is
retail and the charged subtotal is the retail subtotal. -/
theorem calculatePricing_tier_and_subtotal (items : List CartItemWithProduct) :
    ((calculatePricing items).tier =
      if 5000 ≤ (items.map (fun it => it.product.retail_price * (it.qty : Rat))).sum
      then PriceTier.distributor else PriceTier.retail) ∧
    ((calculatePricing items).subtotal =
      round2 (if 5000 ≤ (items.map (fun it => it.product.retail_price * (it.qty : Rat))).sum
        then (items.map (fun it => it.product.distributor_price * (it.qty : Rat))).sum
        else (items.map (fun it => it.product.retail_price * (it.qty : Rat))).sum)) := by
  have hr := retailSubtotal_eq_sum items
  have hd := distributorSubtotal_eq_sum items
  by_cases h :
      (5000 : Rat) ≤ (items.map (fun it => it.product.retail_price * (it.qty : Rat))).sum
  · constructor <;>
      simp [calculatePricing, qualifiesForDistributorPricing, CONFIG, hr, hd, h]
  · constructor <;>
      simp [calculatePricing, qualifiesForDistributorPricing, CONFIG, hr, hd, h]

/-- C2: the order qualifies for checkout (meets_minimum) exactly when
the sum of qty over the cart lines reaches the fixed minimum 7; the
items_count reported is that same sum of quantities, not the number of
lines. -/
theorem calculatePricing_meets_minimum (items : List CartItemWithProduct) :
    (calculatePricing items).items_count = (items.map (fun it => it.qty)).sum ∧
    ((calculatePricing items).meets_minimum = true ↔
      7 ≤ (items.map (fun it => it.qty)).sum) := by
  have ht := totalItems_eq_sum items
  constructor
  · simp [calculatePricing, ht]
  · simp [calculatePricing, meetsMinimumItems, CONFIG, ht]

/-- C9: distributor_savings is present exactly when the cart qualifies
for distributor pricing and the retail-minus-distributor difference is
nonzero, in which case it is that difference rounded to two decimals; a
qualifying cart with equal subtotals reports no savings field. -/
theorem calculatePricing_distributor_savings (items : List CartItemWithProduct) :
    (calculatePricing items).distributor_savings =
      (if 5000 ≤ (items.map (fun it => it.product.retail_price * (it.qty : Rat))).sum then
        (if (items.map (fun it => it.product.retail_price * (it.qty : Rat))).sum -
            (items.map (fun it => it.product.distributor_price * (it.qty : Rat))).sum = 0
         then none
         else some (round2
           ((items.map (fun it => it.product.retail_price * (it.qty : Rat))).sum -
            (items.map (fun it => it.product.distributor_price * (it.qty : Rat))).sum)))
       else none) := by
  have hr := retailSubtotal_eq_sum items
  have hd := distributorSubtotal_eq_sum items
  by_cases h :
      (5000 : Rat) ≤ (items.map (fun it => it.product.retail_price * (it.qty : Rat))).sum
  · by_cases h0 :
        (items.map (fun it => it.product.retail_price * (it.qty : Rat))).sum -
          (items.map (fun it => it.product.distributor_price * (it.qty : Rat))).sum = 0
    · simp [calculatePricing, qualifiesForDistributorPricing, CONFIG, hr, hd, h, h0]
    · simp [calculatePricing, qualifiesForDistributorPricing, CONFIG, hr, hd, h, h0]
  · simp [calculatePricing, qualifiesForDistributorPricing, CONFIG, hr, hd, h]

/-- C4: each domain error class carries exactly the conventional HTTP
status (NotFound 404, Conflict 409, Validation 400, Unauthorized 401,
Forbidden 403, Internal 500), the ERROR_MAPPINGS table agrees, and
getHttpStatusCode returns the statusCode for every domain error and 500
for every non-domain error. -/
theorem error_status_mapping :
    (∀ r i, (DomainError.notFound r i).statusCode = 404 ∧
      ERROR_MAPPINGS.lookup (DomainError.notFound r i).code = some 404) ∧
    (∀ r f v, (DomainError.conflict r f v).statusCode = 409 ∧
      ERROR_MAPPINGS.lookup (DomainError.conflict r f v).code = some 409) ∧
    (∀ m f, (DomainError.validation m f).statusCode = 400 ∧
      ERROR_MAPPINGS.lookup (DomainError.validation m f).code = some 400) ∧
    (∀ m, (DomainError.unauthorized m).statusCode = 401 ∧
      ERROR_MAPPINGS.lookup (DomainError.unauthorized m).code = some 401) ∧
    (∀ m, (DomainError.forbidden m).statusCode = 403 ∧
      ERROR_MAPPINGS.lookup (DomainError.forbidden m).code = some 403) ∧
    (∀ m, (DomainError.internal m).statusCode = 500 ∧
      ERROR_MAPPINGS.lookup (DomainError.internal m).code = some 500) ∧
    (∀ e : DomainError, getHttpStatusCode (.domain e) = e.statusCode) ∧
    (∀ m, getHttpStatusCode (.other m) = 500) :=
  ⟨fun _ _ => ⟨rfl, rfl⟩, fun _ _ _ => ⟨rfl, rfl⟩, fun _ _ => ⟨rfl, rfl⟩,
   fun _ => ⟨rfl, rfl⟩, fun _ => ⟨rfl, rfl⟩, fun _ => ⟨rfl, rfl⟩,
   fun _ => rfl, fun _ => rfl⟩

theorem all_stock_nonneg_map (l : List InventoryRow) (g : InventoryRow → InventoryRow)
    (hg : ∀ r, 0 ≤ r.stock → 0 ≤ (g r).stock) :
    l.all (fun r => decide (0 ≤ r.stock)) = true →
    (l.map g).all (fun r => decide (0 ≤ r.stock)) = true := by
  intro hl
  rw [List.all_eq_true] at hl ⊢
  intro r hr
  rcases List.mem_map.mp hr with ⟨x, hx, hfx⟩
  have h0 : 0 ≤ x.stock := by simpa using hl x hx
  simpa [← hfx] using hg x h0

/-- C8: the modelled inventory writes keep stock nonnegative:
updateInventory rejects a negative requested stock before writing,
adjustStock rejects an adjustment that would push the current stock
below zero and otherwise writes exactly currentStock + adjustment, and
both operations map a database whose stocks are all nonnegative to one
whose stocks are all nonnegative. -/
theorem inventory_writes_preserve_nonneg (db : DB) (pid : Nat)
    (req : UpdateInventoryRequest) (adj : Int) :
    (req.stock < 0 →
      updateInventory db pid req =
        (db, .error (.validation msgStockNegative (some fieldStock)))) ∧
    (∀ inv, getInventory db pid = some inv →
      (inv.stock + adj < 0 →
        adjustStock db pid adj =
          (db, .error (.insufficientData resStock inv.stock adj.natAbs))) ∧
      (0 ≤ inv.stock + adj →
        (adjustStock db pid adj).2 = .ok
          { product_id := pid
            stock := inv.stock + adj
            low_stock_threshold := inv.low_stock_threshold } ∧
        (adjustStock db pid adj).1.inventory = db.inventory.map (fun r =>
          if r.product_id = pid then { r with stock := inv.stock + adj } else r))) ∧
    (db.inventory.all (fun r => decide (0 ≤ r.stock)) = true →
      (updateInventory db pid req).1.inventory.all (fun r => decide (0 ≤ r.stock)) = true) ∧
    (db.inventory.all (fun r => decide (0 ≤ r.stock)) = true →
      (adjustStock db pid adj).1.inventory.all (fun r => decide (0 ≤ r.stock)) = true) := by
  refine ⟨?_, ?_, ?_, ?_⟩
  · intro h
    simp [updateInventory, h]
  · intro inv hinv
    constructor
    · intro hneg
      simp [adjustStock, hinv, hneg]
    · intro hpos
      have hneg' : ¬ inv.stock + adj < 0 := not_lt.mpr hpos
      constructor
      · simp [adjustStock, hinv, hneg']
      · simp [adjustStock, hinv, hneg']
  · intro hall
    by_cases h : req.stock < 0
    · simpa [updateInventory, h] using hall
    · have h0 : 0 ≤ req.stock := not_lt.mp h
      simp only [updateInventory, if_neg h]
      cases hg : getInventory db pid with
      | none => exact hall
      | some inv =>
        have hmap := all_stock_nonneg_map db.inventory
          (fun r => if r.product_id = pid then
            { r with stock := req.stock
                     low_stock_threshold :=
                       req.low_stock_threshold.getD r.low_stock_threshold }
            else r)
          (by
            intro r hr
            by_cases hp : r.product_id = pid
            · simpa [hp] using h0
            · simpa [hp] using hr)
          hall
        cases hp : ({ db with inventory := db.inventory.map (fun r =>
            if r.product_id = pid then
              { r with stock := req.stock
                       low_stock_threshold :=
                         req.low_stock_threshold.getD r.low_stock_threshold }
              else r) } : DB).products.find? (fun p => p.id = pid) <;>
          simpa using hmap
  · intro hall
    cases hg : getInventory db pid with
    | none => simpa [adjustStock, hg] using hall
    | some inv =>
      by_cases hneg : inv.stock + adj < 0
      · simpa [adjustStock, hg, hneg] using hall
      · have h0 : 0 ≤ inv.stock + adj := not_lt.mp hneg
        have hmap := all_stock_nonneg_map db.inventory
          (fun r => if r.product_id = pid then { r with stock := inv.stock + adj } else r)
          (by
            intro r hr
            by_cases hp : r.product_id = pid
            · simpa [hp] using h0
            · simpa [hp] using hr)
          hall
        simpa [adjustStock, hg, hneg] using hmap

/-- Witness for C8 at concrete inventories. -/
theorem inventory_writes_preserve_nonneg_witness :
    updateInventory dbInv 1 { stock := -1, low_stock_threshold := none } =
      (dbInv, .error (.validation msgStockNegative (some fieldStock))) ∧
    adjustStock dbInv 1 (-6) = (dbInv, .error (.insufficientData resStock 5 6)) ∧
    (adjustStock dbInv 1 (-5)).2 =
      .ok { product_id := 1, stock := 0, low_stock_threshold := 5 } ∧
    (updateInventory dbInv 1 { stock := 3, low_stock_threshold := none }).1.inventory.all
      (fun r => decide (0 ≤ r.stock)) = true ∧
    (adjustStock dbInv 1 (-5)).1.inventory.all (fun r => decide (0 ≤ r.stock)) = true := by
  refine ⟨?_, ?_, ?_, ?_, ?_⟩
  · exact (inventory_writes_preserve_nonneg dbInv 1 ⟨-1, none⟩ 0).1 (by decide)
  · exact ((inventory_writes_preserve_nonneg dbInv 1 ⟨-1, none⟩ (-6)).2.1 invA rfl).1
      (by decide)
  · exact ((((inventory_writes_preserve_nonneg dbInv 1 ⟨-1, none⟩ (-5)).2.1 invA
      rfl).2 (by decide)).1).trans (by decide)
  · exact (inventory_writes_preserve_nonneg dbInv 1 ⟨3, none⟩ 0).2.2.1 (by decide)
  · exact (inventory_writes_preserve_nonneg dbInv 1 ⟨3, none⟩ (-5)).2.2.2 (by decide)

/-- C6 counterexample: createCategory performs its own name-uniqueness
check — on a database already holding the category name it throws
ConflictError and issues no write at all. -/
theorem createCategory_own_uniqueness_check :
    createCategory dbCat catName =
      (dbCat, .error (.conflict resCategory fieldName catName)) := by
  decide

/-- C6 amended: the service layer does perform its own uniqueness and
referential-integrity handling: createCategory rejects an existing name
with ConflictError and leaves the database unchanged, updateCategory
rejects a name held by a different category the same way, createProduct
rejects an existing SKU the same way, and deleteCategory first nulls
out category_id on every referencing product so no product of the
resulting database references the deleted category, which is gone. -/
theorem service_layer_own_checks (db : DB) (name : String)
    (req : CreateProductRequest) (id : Nat) :
    (∀ c, getCategoryByName db name = some c →
      createCategory db name = (db, .error (.conflict resCategory fieldName name))) ∧
    (∀ c, getCategoryByName db name = some c → ¬ c.id = id →
      updateCategory db id name = (db, .error (.conflict resCategory fieldName name))) ∧
    (∀ p, getProductBySku db req.sku = some p →
      createProduct db req = (db, .error (.conflict resProduct fieldSku req.sku))) ∧
    (∀ p, p ∈ (deleteCategory db id).1.products → p.category_id ≠ some id) ∧
    (∀ c, c ∈ (deleteCategory db id).1.categories → c.id ≠ id) := by
  refine ⟨?_, ?_, ?_, ?_, ?_⟩
  · intro c hc
    simp [createCategory, hc]
  · intro c hc hne
    simp [updateCategory, hc, hne]
  · intro p hp
    simp [createProduct, hp]
  · intro p hp
    by_cases hcnt : 0 < (db.products.filter (fun q => q.category_id = some id)).length
    · simp only [deleteCategory, if_pos hcnt] at hp
      rcases List.mem_map.mp hp with ⟨x, hx, hfx⟩
      by_cases hxc : x.category_id = some id
      · simp only [if_pos hxc] at hfx
        rw [← hfx]
        simp
      · simp only [if_neg hxc] at hfx
        rw [← hfx]
        exact hxc
    · have hnil : db.products.filter (fun q => q.category_id = some id) = [] := by
        cases hf : db.products.filter (fun q => q.category_id = some id) with
        | nil => rfl
        | cons a l => exact absurd (by simp [hf]) hcnt
      have hnone := List.filter_eq_nil_iff.mp hnil
      simp only [deleteCategory, if_neg hcnt] at hp
      simpa using hnone p hp
  · intro c hc
    have h2 : c ∈ db.categories ∧ ¬ c.id = id := by
      by_cases hcnt : 0 < (db.products.filter (fun q => q.category_id = some id)).length <;>
        simpa [deleteCategory, hcnt] using hc
    exact h2.2

/-- Witness for C6 amended at concrete databases. -/
theorem service_layer_own_checks_witness :
    createCategory dbProdCat catName =
      (dbProdCat, .error (.conflict resCategory fieldName catName)) ∧
    updateCategory dbCat 2 catName =
      (dbCat, .error (.conflict resCategory fieldName catName)) ∧
    createProduct dbProdCat ⟨skuA, nameA, none, none, 100, 80, true, 0, 5⟩ =
      (dbProdCat, .error (.conflict resProduct fieldSku skuA)) ∧
    ({ prodC with category_id := none } : Product).category_id ≠ some 1 ∧
    ({ id := 1, name := catName } : CategoryRow).id ≠ 2 := by
  refine ⟨?_, ?_, ?_, ?_, ?_⟩
  · exact (service_layer_own_checks dbProdCat catName
      ⟨skuA, nameA, none, none, 100, 80, true, 0, 5⟩ 1).1 ⟨1, catName⟩ rfl
  · exact (service_layer_own_checks dbCat catName
      ⟨skuA, nameA, none, none, 100, 80, true, 0, 5⟩ 2).2.1 ⟨1, catName⟩ rfl (by decide)
  · exact (service_layer_own_checks dbProdCat catName
      ⟨skuA, nameA, none, none, 100, 80, true, 0, 5⟩ 1).2.2.1 prodC (by decide)
  · exact (service_layer_own_checks dbProdCat catName
      ⟨skuA, nameA, none, none, 100, 80, true, 0, 5⟩ 1).2.2.2.1
      { prodC with category_id := none } (by decide)
  · exact (service_layer_own_checks dbProdCat catName
      ⟨skuA, nameA, none, none, 100, 80, true, 0, 5⟩ 2).2.2.2.2
      { id := 1, name := catName } (by decide)

/-- C5 counterexample: addToCart surfaces a typed ValidationError whose
status is 400, not a generic 500, on a nonpositive quantity. -/
theorem addToCart_surfaces_400 :
    (addToCart emptyDB userU 1 0).2 =
      .error (.validation msgQtyPositive (some fieldQty)) ∧
    DomainError.statusCode (.validation msgQtyPositive (some fieldQty)) = 400 ∧
    (400 : Nat) ≠ 500 := by
  refine ⟨rfl, rfl, by decide⟩

/-- C5 amended: only unexpected errors are wrapped into a generic 500;
the typed domain errors pass through with their own status, so every
error surfaced by addToCart has status 400 or 500 and every error
surfaced by updateCartItem has status 400, 404 or 500. -/
theorem cart_errors_have_typed_status (db : DB) (uid : String) (pid : Nat) (q : Int) :
    (∀ e, (addToCart db uid pid q).2 = .error e →
      e.statusCode = 400 ∨ e.statusCode = 500) ∧
    (∀ e, (updateCartItem db uid pid q).2 = .error e →
      e.statusCode = 400 ∨ e.statusCode = 404 ∨ e.statusCode = 500) := by
  constructor
  · intro e he
    by_cases hq : q ≤ 0
    · simp only [addToCart, if_pos hq] at he
      simp only [Except.error.injEq] at he
      subst he
      exact Or.inl rfl
    · simp only [addToCart, if_neg hq] at he
      rcases hr : (addToCartInner db uid pid q).2 with e2 | it
      · rw [hr] at he
        cases e2 <;> simp only [Except.error.injEq] at he <;> subst he <;>
          simp [DomainError.statusCode]
      · rw [hr] at he
        simp at he
  · intro e he
    by_cases hq : q < 0
    · simp only [updateCartItem, if_pos hq] at he
      simp only [Except.error.injEq] at he
      subst he
      exact Or.inl rfl
    · simp only [updateCartItem, if_neg hq] at he
      rcases hr : (updateCartItemInner db uid pid q).2 with e2 | it
      · rw [hr] at he
        cases e2 <;> simp only [Except.error.injEq] at he <;> subst he <;>
          simp [DomainError.statusCode]
      · rw [hr] at he
        simp at he

/-- Witness for C5 amended at concrete calls. -/
theorem cart_errors_have_typed_status_witness :
    (DomainError.statusCode (.validation msgQtyPositive (some fieldQty)) = 400 ∨
      DomainError.statusCode (.validation msgQtyPositive (some fieldQty)) = 500) ∧
    (DomainError.statusCode (.validation msgQtyNonNegative (some fieldQty)) = 400 ∨
      DomainError.statusCode (.validation msgQtyNonNegative (some fieldQty)) = 404 ∨
      DomainError.statusCode (.validation msgQtyNonNegative (some fieldQty)) = 500) :=
  ⟨(cart_errors_have_typed_status emptyDB userU 1 0).1 _ (by decide),
   (cart_errors_have_typed_status emptyDB userU 1 (-1)).2 _ (by decide)⟩

theorem getOrCreateCart_fields (db : DB) (uid : String) :
    (getOrCreateCart db uid).1.products = db.products ∧
    (getOrCreateCart db uid).1.inventory = db.inventory ∧
    (getOrCreateCart db uid).1.cartItems = db.cartItems := by
  unfold getOrCreateCart
  cases h : db.carts.find? (fun c => c.user_id = uid) <;> simp

theorem getOrCreateCart_idem (db : DB) (uid : String) :
    getOrCreateCart (getOrCreateCart db uid).1 uid = getOrCreateCart db uid := by
  unfold getOrCreateCart
  cases h : db.carts.find? (fun c => c.user_id = uid) with
  | some c => simp [h]
  | none => simp [List.find?_append, h]

theorem validateProductExists_congr (db db2 : DB) (pid : Nat)
    (h : db2.products = db.products) :
    validateProductExists db2 pid = validateProductExists db pid := by
  simp [validateProductExists, h]

theorem validateStock_congr (db db2 : DB) (pid : Nat) (q : Int)
    (h : db2.inventory = db.inventory) :
    validateStock db2 pid q = validateStock db pid q := by
  simp [validateStock, checkStockAvailability, getInventory, h]

theorem findCartItem_congr (db db2 : DB) (cid pid : Nat)
    (h : db2.cartItems = db.cartItems) :
    findCartItem db2 cid pid = findCartItem db cid pid := by
  simp [findCartItem, h]

theorem validateProductExists_true (db : DB) (pid : Nat) :
    (validateProductExists db pid).1 = true → (validateProductExists db pid).2 = true →
    ∃ p, db.products.find? (fun p2 => p2.id = pid) = some p ∧ p.active = true := by
  unfold validateProductExists
  cases hf : db.products.find? (fun p2 => p2.id = pid) with
  | none => intro h _; simp at h
  | some p => intro _ h2; exact ⟨p, rfl, by simpa using h2⟩

theorem validateStock_valid (db : DB) (pid : Nat) (q : Int) :
    (validateStock db pid q).is_valid = true →
    ∃ inv, getInventory db pid = some inv ∧ q ≤ inv.stock := by
  unfold validateStock checkStockAvailability
  cases hg : getInventory db pid with
  | none => intro h; simp at h
  | some inv => intro h; exact ⟨inv, rfl, by simpa using h⟩

theorem addToCartInner_spec (db : DB) (uid : String) (pid : Nat) (q : Int) :
    (∀ e, (addToCartInner db uid pid q).2 = .error e →
      (addToCartInner db uid pid q).1.cartItems = db.cartItems) ∧
    (∀ item, (addToCartInner db uid pid q).2 = .ok item →
      (∃ p, db.products.find? (fun p2 => p2.id = pid) = some p ∧ p.active = true) ∧
      (∃ inv, getInventory db pid = some inv ∧ q ≤ inv.stock ∧
        (∀ ex, findCartItem db (getOrCreateCart db uid).2.id pid = some ex →
          ex.qty + q ≤ inv.stock)) ∧
      ((addToCartInner db uid pid q).1.cartItems =
        match findCartItem db (getOrCreateCart db uid).2.id pid with
        | some ex => (updateCartItemRow (getOrCreateCart db uid).1
            (getOrCreateCart db uid).2.id pid (ex.qty + q)).cartItems
        | none => (insertCartItemRow (getOrCreateCart db uid).1
            (getOrCreateCart db uid).2.id pid q).cartItems)) := by
  obtain ⟨hP, hI, hC⟩ := getOrCreateCart_fields db uid
  have hpe := validateProductExists_congr db (getOrCreateCart db uid).1 pid hP
  have hvs : ∀ n, validateStock (getOrCreateCart db uid).1 pid n = validateStock db pid n :=
    fun n => validateStock_congr db (getOrCreateCart db uid).1 pid n hI
  have hfi := findCartItem_congr db (getOrCreateCart db uid).1
    (getOrCreateCart db uid).2.id pid hC
  by_cases h1 : (validateProductExists db pid).1 = true
  · by_cases h2 : (validateProductExists db pid).2 = true
    · by_cases h3 : (validateStock db pid q).is_valid = true
      · cases h4 : findCartItem db (getOrCreateCart db uid).2.id pid with
        | none =>
          constructor
          · intro e he
            simp [addToCartInner, hpe, hvs, hfi, h1, h2, h3, h4] at he
          · intro item _
            refine ⟨validateProductExists_true db pid h1 h2, ?_, ?_⟩
            · obtain ⟨inv, hinv, hle⟩ := validateStock_valid db pid q h3
              exact ⟨inv, hinv, hle, fun ex hex => Option.noConfusion hex⟩
            · simp [addToCartInner, hpe, hvs, hfi, h1, h2, h3, h4]
        | some ex =>
          by_cases h5 : (validateStock db pid (ex.qty + q)).is_valid = true
          · constructor
            · intro e he
              simp [addToCartInner, hpe, hvs, hfi, h1, h2, h3, h4, h5] at he
            · intro item _
              refine ⟨validateProductExists_true db pid h1 h2, ?_, ?_⟩
              · obtain ⟨inv, hinv, hle⟩ := validateStock_valid db pid q h3
                obtain ⟨inv2, hinv2, hle2⟩ := validateStock_valid db pid (ex.qty + q) h5
                refine ⟨inv, hinv, hle, fun ex2 hex2 => ?_⟩
                have hx : ex2 = ex := (Option.some.inj hex2).symm
                rw [hinv] at hinv2
                cases hinv2
                subst hx
                exact hle2
              · simp [addToCartInner, hpe, hvs, hfi, h1, h2, h3, h4, h5]
          · constructor
            · intro e he
              simp [addToCartInner, hpe, hvs, hfi, h1, h2, h3, h4, h5, hC]
            · intro item hit
              simp [addToCartInner, hpe, hvs, hfi, h1, h2, h3, h4, h5] at hit
      · constructor
        · intro e he
          simp [addToCartInner, hpe, hvs, hfi, h1, h2, h3, hC]
        · intro item hit
          simp [addToCartInner, hpe, hvs, hfi, h1, h2, h3] at hit
    · constructor
      · intro e he
        simp [addToCartInner, hpe, hvs, hfi, h1, h2, hC]
      · intro item hit
        simp [addToCartInner, hpe, hvs, hfi, h1, h2] at hit
  · constructor
    · intro e he
      simp [addToCartInner, hpe, hvs, hfi, h1, hC]
    · intro item hit
      simp [addToCartInner, hpe, hvs, hfi, h1] at hit

/-- C3: addToCart writes a cart item row (insert, or qty increment)
only when all sequential checks pass: positive qty, product exists and
is active, and the total requested quantity (new qty plus any quantity
already in the cart for that product) within the available stock; on
any failed check an error is returned and the cart items are unchanged. -/
theorem addToCart_checks_before_write (db : DB) (uid : String) (pid : Nat) (q : Int) :
    (∀ e, (addToCart db uid pid q).2 = .error e →
      (addToCart db uid pid q).1.cartItems = db.cartItems) ∧
    (∀ item, (addToCart db uid pid q).2 = .ok item →
      0 < q ∧
      (∃ p, db.products.find? (fun p2 => p2.id = pid) = some p ∧ p.active = true) ∧
      (∃ inv, getInventory db pid = some inv ∧ q ≤ inv.stock ∧
        (∀ ex, findCartItem db (getOrCreateCart db uid).2.id pid = some ex →
          ex.qty + q ≤ inv.stock)) ∧
      ((addToCart db uid pid q).1.cartItems =
        match findCartItem db (getOrCreateCart db uid).2.id pid with
        | some ex => (updateCartItemRow (getOrCreateCart db uid).1
            (getOrCreateCart db uid).2.id pid (ex.qty + q)).cartItems
        | none => (insertCartItemRow (getOrCreateCart db uid).1
            (getOrCreateCart db uid).2.id pid q).cartItems)) := by
  by_cases hq : q ≤ 0
  · constructor
    · intro e _
      simp [addToCart, hq]
    · intro item hit
      simp [addToCart, hq] at hit
  · have hspec := addToCartInner_spec db uid pid q
    constructor
    · intro e he
      simp only [addToCart, if_neg hq] at he ⊢
      rcases hr : (addToCartInner db uid pid q).2 with e2 | it
      · have hinner := hspec.1 e2 hr
        cases e2 <;> simpa using hinner
      · simp [hr] at he
    · intro item hit
      simp only [addToCart, if_neg hq] at hit ⊢
      rcases hr : (addToCartInner db uid pid q).2 with e2 | it
      · cases e2 <;> simp [hr] at hit
      · obtain ⟨hprod, hstock, hwrite⟩ := hspec.2 it hr
        exact ⟨not_le.mp hq, hprod, hstock, by simpa using hwrite⟩

/-- Witness for C3 at concrete calls: a successful add with positive
qty, and a rejected add (stock exceeded) leaving the cart unchanged. -/
theorem addToCart_checks_before_write_witness :
    (0 : Int) < 2 ∧ (addToCart dbCart userU 1 99).1.cartItems = dbCart.cartItems :=
  ⟨((addToCart_checks_before_write dbCart userU 1 2).2
      { cart_id := 1, product_id := 1, qty := 2 } (by decide)).1,
   (addToCart_checks_before_write dbCart userU 1 99).1
      (.validation msgInsufficientStock (some fieldQty)) (by decide)⟩

theorem updateCartItemInner_pos_spec (db : DB) (uid : String) (pid : Nat)
    (newQty : Int) (hnz : ¬ newQty = 0) :
    ∀ item, (updateCartItemInner db uid pid newQty).2 = .ok item →
      (∃ p, db.products.find? (fun p2 => p2.id = pid) = some p ∧ p.active = true) ∧
      (∃ inv, getInventory db pid = some inv ∧ newQty ≤ inv.stock) ∧
      (updateCartItemInner db uid pid newQty).1.cartItems =
        (updateCartItemRow (getOrCreateCart db uid).1
          (getOrCreateCart db uid).2.id pid newQty).cartItems := by
  obtain ⟨hP, hI, hC⟩ := getOrCreateCart_fields db uid
  have hpe := validateProductExists_congr db (getOrCreateCart db uid).1 pid hP
  have hvs := validateStock_congr db (getOrCreateCart db uid).1 pid newQty hI
  intro item hit
  by_cases h1 : (validateProductExists db pid).1 = true
  · by_cases h2 : (validateProductExists db pid).2 = true
    · by_cases h3 : (validateStock db pid newQty).is_valid = true
      · refine ⟨validateProductExists_true db pid h1 h2,
          validateStock_valid db pid newQty h3, ?_⟩
        simp only [updateCartItemInner, hpe, hvs, h1, h2, h3, hnz, if_neg hnz]
        cases hf : findCartItem
            (updateCartItemRow (getOrCreateCart db uid).1
              (getOrCreateCart db uid).2.id pid newQty)
            (getOrCreateCart db uid).2.id pid with
        | none => simp [hf]
        | some it2 => simp [hf]
      · simp [updateCartItemInner, hpe, hvs, h1, h2, h3, hnz] at hit
    · simp [updateCartItemInner, hpe, h1, h2, hnz] at hit
  · simp [updateCartItemInner, hpe, h1, hnz] at hit

/-- C10: updateCartItem rejects a negative quantity with ValidationError
leaving the database untouched; quantity zero removes the matching cart
item rows and returns null with no product or stock validation at all;
a positive quantity succeeds only with the product existing and active
and the requested quantity within stock, the write setting exactly that
quantity on the matching rows. -/
theorem updateCartItem_qty_branches (db : DB) (uid : String) (pid : Nat) (newQty : Int) :
    (newQty < 0 →
      updateCartItem db uid pid newQty =
        (db, .error (.validation msgQtyNonNegative (some fieldQty)))) ∧
    (newQty = 0 →
      (updateCartItem db uid pid newQty).2 = .ok none ∧
      (updateCartItem db uid pid newQty).1.cartItems =
        db.cartItems.filter (fun it =>
          ¬ (it.cart_id = (getOrCreateCart db uid).2.id ∧ it.product_id = pid))) ∧
    (0 < newQty → ∀ item, (updateCartItem db uid pid newQty).2 = .ok item →
      (∃ p, db.products.find? (fun p2 => p2.id = pid) = some p ∧ p.active = true) ∧
      (∃ inv, getInventory db pid = some inv ∧ newQty ≤ inv.stock) ∧
      (updateCartItem db uid pid newQty).1.cartItems =
        (updateCartItemRow (getOrCreateCart db uid).1
          (getOrCreateCart db uid).2.id pid newQty).cartItems) := by
  refine ⟨?_, ?_, ?_⟩
  · intro h
    simp [updateCartItem, h]
  · intro h
    subst h
    obtain ⟨hP, hI, hC⟩ := getOrCreateCart_fields db uid
    have hid := getOrCreateCart_idem db uid
    constructor
    · simp [updateCartItem, updateCartItemInner, removeFromCart, hid]
    · simp [updateCartItem, updateCartItemInner, removeFromCart, hid,
        deleteCartItemRows, hC]
  · intro hpos item hit
    have hq : ¬ newQty < 0 := not_lt.mpr (le_of_lt hpos)
    have hnz : ¬ newQty = 0 := by omega
    simp only [updateCartItem, if_neg hq] at hit ⊢
    rcases hr : (updateCartItemInner db uid pid newQty).2 with e2 | it
    · cases e2 <;> simp [hr] at hit
    · obtain ⟨hprod, hstock, hwrite⟩ := updateCartItemInner_pos_spec db uid pid newQty hnz it hr
      exact ⟨hprod, hstock, by simpa using hwrite⟩

/-- Witness for C10 at concrete calls: a rejected negative quantity, a
zero-quantity removal, and a successful positive update. -/
theorem updateCartItem_qty_branches_witness :
    updateCartItem dbCartItem userU 1 (-1) =
      (dbCartItem, .error (.validation msgQtyNonNegative (some fieldQty))) ∧
    (updateCartItem dbCartItem userU 1 0).2 = .ok none ∧
    (updateCartItem dbCartItem userU 1 3).1.cartItems =
      (updateCartItemRow (getOrCreateCart dbCartItem userU).1
        (getOrCreateCart dbCartItem userU).2.id 1 3).cartItems :=
  ⟨(updateCartItem_qty_branches dbCartItem userU 1 (-1)).1 (by decide),
   ((updateCartItem_qty_branches dbCartItem userU 1 0).2.1 rfl).1,
   ((updateCartItem_qty_branches dbCartItem userU 1 3).2.2 (by decide)
     (some { cart_id := 1, product_id := 1, qty := 3 }) (by decide)).2.2⟩

/-- C7: the stock check and the cart write in addToCart are not atomic.
Under raceSchedule both calls pass every check and read the existing
cart item before either writes, so both writes land and the cart ends
up with a combined quantity of 10 for a stock of 5; under seqSchedule
the second call sees the first write and is rejected, leaving the
combined quantity at the stock level. -/
theorem addToCart_stock_check_race :
    (runSchedule raceSchedule raceStart).threadA.pc =
      ThreadPC.tDone (.ok { cart_id := 1, product_id := 1, qty := 5 }) ∧
    (runSchedule raceSchedule raceStart).threadB.pc =
      ThreadPC.tDone (.ok { cart_id := 1, product_id := 1, qty := 5 }) ∧
    getInventory (runSchedule raceSchedule raceStart).db 1 = some invA ∧
    invA.stock < cartQtyTotal (runSchedule raceSchedule raceStart).db 1 1 ∧
    (runSchedule seqSchedule raceStart).threadB.pc =
      ThreadPC.tDone (.error (.validation msgInsufficientStockTotal (some fieldQty))) ∧
    cartQtyTotal (runSchedule seqSchedule raceStart).db 1 1 = invA.stock := by
  decide
